import Mathlib

/-!
Verification of the ClinicFlow appointment SMS reminder subsystem.

This file gives a shallow embedding, in Lean 4, of the reminder subsystem of
the clinicflow backend:

* `appointments/services/sms.py` — phone normalization (`normalize_phone_drc`),
  phone masking (`mask_phone`) and the gateway client (`send_sms`);
* `appointments/management/commands/send_appointment_reminders.py` — the
  eligibility evaluator (`is_eligible_for_send`), the message formatter
  (`build_sms_message`) and the reminder run orchestrator (`Command.handle`,
  embedded here as `handle` with the per-candidate loop body `stepCandidate`).

Modelling conventions:
* Python strings that require structural reasoning (phone numbers, message
  text, error text) are modelled as `List Char` (abbreviated `Str`); Python
  string operations map to the corresponding list operations
  (`s[:n]` → `take n`, `s[-3:]` → `drop (length - 3)`, `startswith` →
  `isPrefixOf`, `str.strip()` → dropping whitespace at both ends).
* Short enumeration-like strings (appointment status, log status, provider
  name) are modelled as Lean `String` literals; only equality on them is used.
* Datetimes are modelled as integer seconds.  The clinic timezone
  (Africa/Kinshasa) is a fixed-offset zone with no DST transitions, so
  `astimezone(tz)` is addition of the constant offset and a local calendar
  date is the floor division of the local timestamp by 86400.
* The regex `\d` is modelled as `Char.isDigit` (all inputs of interest are
  ASCII).
* The network is modelled as an oracle: a function from the request data
  (recipient, message body) to a `ProviderResponse`, which is either a raised
  exception (carrying `str(exc)`) or an HTTP response (status code, body text,
  and the parsed `SMSMessageData.Recipients` list, `none` when the body is not
  JSON).  The database is modelled as an explicit `RunState` (the appointment
  rows and the append-only SMS log rows) threaded through the run.
-/

abbrev Str := List Char

/-- `_DIGITS_ONLY.sub("", s)`: remove every character that is not a digit and
not a `+` (the regex is `[^\d+]`).  Whitespace is among the removed
characters, so the preceding Python `raw.strip()` is subsumed. -/
def stripNonDigitPlus (s : Str) : Str :=
  s.filter (fun c => c.isDigit || c == '+')

/-- `_E164_PATTERN = ^\+\d{8,15}$`: a `+` followed by 8 to 15 digits. -/
def isE164 : Str → Bool
  | '+' :: ds => decide (8 ≤ ds.length) && decide (ds.length ≤ 15) && ds.all Char.isDigit
  | _ => false

/-- `DRC_COUNTRY_CODE = "+243"`. -/
def DRC_COUNTRY_CODE : Str := ['+', '2', '4', '3']

/-- The branch chain of `normalize_phone_drc` after stripping: the four-way
`if/elif` choosing how to prefix the number, followed by the
ensure-leading-`+` step. -/
def normalizeCore (phone0 : Str) : Str :=
  let phone :=
    if List.isPrefixOf (['+', '2', '4', '3'] : Str) phone0 then
      phone0
    else if List.isPrefixOf (['2', '4', '3'] : Str) phone0 && decide (12 ≤ phone0.length) then
      '+' :: phone0
    else if List.isPrefixOf (['0'] : Str) phone0 && decide (9 ≤ phone0.length) then
      DRC_COUNTRY_CODE ++ phone0.drop 1
    else if decide (9 ≤ phone0.length) && !(List.isPrefixOf (['+'] : Str) phone0) then
      DRC_COUNTRY_CODE ++ phone0
    else
      phone0
  if List.isPrefixOf (['+'] : Str) phone then phone else '+' :: phone

/-- `normalize_phone_drc(raw)` from `appointments/services/sms.py`:
normalize a DRC phone number to E.164, returning `none` when the result does
not match the E.164 pattern (covers empty input and garbage). -/
def normalize_phone_drc (raw : Str) : Option Str :=
  if raw = [] then none
  else
    let phone := normalizeCore (stripNonDigitPlus raw)
    if isE164 phone then some phone else none

/-- `mask_phone(phone)`: `"***"` for strings of length ≤ 7 (and the empty
string); otherwise the first 5 characters, then `len - 8` asterisks, then the
last 3 characters. -/
def mask_phone (phone : Str) : Str :=
  if phone.length ≤ 7 then "***".toList
  else phone.take 5 ++ List.replicate (phone.length - 8) '*' ++ phone.drop (phone.length - 3)

/-- The structured result dict returned by `send_sms`. -/
structure SendResult where
  ok : Bool
  provider : String
  message_id : Option Str
  error : Option Str
  phone_normalised : Option Str
deriving DecidableEq

/-- One entry of the parsed `SMSMessageData.Recipients` array.  The fields are
`Option` because the code reads them with `.get` (`status` defaulting to
`"Unknown"`, `messageId` defaulting to `None`). -/
structure Recipient where
  status : Option Str
  messageId : Option Str
deriving DecidableEq

/-- The behaviour of one HTTP POST to the provider: either an exception was
raised (carrying `str(exc)`), or a response arrived with a status code, a body
text, and — when the body parsed as JSON — the extracted `Recipients` list
(extraction itself cannot fail: missing keys default to `[]`). -/
inductive ProviderResponse where
  | exn (msg : Str)
  | resp (status_code : Nat) (text : Str) (json : Option (List Recipient))
deriving DecidableEq

/-- The Django settings consumed by the subsystem.  `clinic_tz_offset` is the
fixed UTC offset of `CLINIC_TIMEZONE` in seconds (3600 for Africa/Kinshasa);
`sms_max_reminders_per_run` is `none` when the setting is absent (the code
then uses the `getattr` default 200). -/
structure Settings where
  username : Str
  api_key : Str
  sender_id : Str
  clinic_tz_offset : Int
  sms_max_reminders_per_run : Option Nat
deriving DecidableEq

/-- Python `x or y` for a possibly-absent, possibly-empty string `x`:
`None` and `""` are falsy. -/
def pyOr (x : Option Str) (y : Str) : Str :=
  match x with
  | none => y
  | some s => if s = [] then y else s

/-- Python `str.strip()`: remove leading and trailing whitespace. -/
def pyStrip (s : Str) : Str :=
  ((s.dropWhile Char.isWhitespace).reverse.dropWhile Char.isWhitespace).reverse

/-- `resp.text[:200] if resp.text else "(empty)"`. -/
def bodySnippet (text : Str) : Str :=
  if text = [] then "(empty)".toList else text.take 200

/-- `send_sms(phone_number, message)` from `appointments/services/sms.py`.
`net` is the network oracle: the outcome of the HTTP POST as a function of
the recipient (normalized phone) and the message body.  The result dict is
initialized with `ok := false`, `provider := "africastalking"`, and the other
fields `None`; each return path below fills it exactly as the source does. -/
def send_sms (st : Settings) (net : Str → Str → ProviderResponse)
    (phone_number message : Str) : SendResult :=
  match normalize_phone_drc phone_number with
  | none =>
      { ok := false, provider := "africastalking", message_id := none,
        error := some ("Invalid phone number: ".toList ++ mask_phone phone_number),
        phone_normalised := none }
  | some normalised =>
      if st.username = [] || st.api_key = [] then
        { ok := false, provider := "africastalking", message_id := none,
          error := some ("SMS provider not configured".toList),
          phone_normalised := some normalised }
      else
        match net normalised message with
        | ProviderResponse.exn msg =>
            { ok := false, provider := "africastalking", message_id := none,
              error := some (msg.take 200), phone_normalised := some normalised }
        | ProviderResponse.resp code text json =>
            if 400 ≤ code then
              { ok := false, provider := "africastalking", message_id := none,
                error := some ("HTTP ".toList ++ (Nat.repr code).toList ++ ": ".toList
                  ++ bodySnippet text),
                phone_normalised := some normalised }
            else
              match json with
              | none =>
                  { ok := false, provider := "africastalking", message_id := none,
                    error := some ("Invalid JSON from provider: ".toList ++ bodySnippet text),
                    phone_normalised := some normalised }
              | some recipients =>
                  match recipients with
                  | [] =>
                      { ok := false, provider := "africastalking", message_id := none,
                        error := some ("No recipients in provider response".toList),
                        phone_normalised := some normalised }
                  | r :: _ =>
                      if r.status.getD ("Unknown".toList) = "Success".toList then
                        { ok := true, provider := "africastalking",
                          message_id := r.messageId, error := none,
                          phone_normalised := some normalised }
                      else
                        { ok := false, provider := "africastalking", message_id := none,
                          error := some ("Provider status: ".toList
                            ++ r.status.getD ("Unknown".toList)),
                          phone_normalised := some normalised }

/-! ## The reminder command (`send_appointment_reminders.py`) -/

/-- The local calendar day of a local timestamp (`datetime.date()` of a
fixed-offset local datetime): floor division of the second count by 86400. -/
def dateOf (t : Int) : Int := t / 86400

/-- `is_eligible_for_send(appointment, now_local, clinic_tz)`: the strict
cutoff rule.  `scheduledUtc` is `appointment.scheduled_at`; the conversion
`astimezone(clinic_tz)` is addition of the fixed offset `tzOff`.  Returns the
`(eligible, reason)` pair of the source. -/
def is_eligible_for_send (scheduledUtc nowLocal tzOff : Int) : Bool × String :=
  let apptLocal := scheduledUtc + tzOff
  let dayBefore := dateOf apptLocal - 1
  let cutoff := dayBefore * 86400 + 17 * 3600
  if nowLocal < cutoff then (false, "before cutoff (17:00 day before)")
  else if apptLocal ≤ nowLocal then (false, "appointment time has passed")
  else if dateOf apptLocal ≤ dateOf nowLocal then (false, "already appointment day — missed window")
  else if ¬ (dateOf nowLocal = dayBefore) then (false, "not the day before appointment")
  else (true, "eligible")

/-- Proleptic-Gregorian civil date (year, month, day) of a day number counted
from 1970-01-01, the calendar Python's `datetime.date` implements (standard
days-to-civil algorithm; all intermediate quotients are of nonnegative
values, so `Int` division agrees with the usual truncating division). -/
def civilFromDays (z0 : Int) : Int × Int × Int :=
  let z := z0 + 719468
  let era := (if 0 ≤ z then z else z - 146096) / 146097
  let doe := z - era * 146097
  let yoe := (doe - doe / 1460 + doe / 36524 - doe / 146096) / 365
  let y := yoe + era * 400
  let doy := doe - (365 * yoe + yoe / 4 - yoe / 100)
  let mp := (5 * doy + 2) / 153
  let d := doy - (153 * mp + 2) / 5 + 1
  let m := mp + (if mp < 10 then 3 else -9)
  (y + (if m ≤ 2 then 1 else 0), m, d)

/-- `_FRENCH_MONTHS` (1-indexed lookup table). -/
def frenchMonth (m : Int) : Str :=
  if m = 1 then "janvier".toList
  else if m = 2 then "février".toList
  else if m = 3 then "mars".toList
  else if m = 4 then "avril".toList
  else if m = 5 then "mai".toList
  else if m = 6 then "juin".toList
  else if m = 7 then "juillet".toList
  else if m = 8 then "août".toList
  else if m = 9 then "septembre".toList
  else if m = 10 then "octobre".toList
  else if m = 11 then "novembre".toList
  else if m = 12 then "décembre".toList
  else []

/-- Hour-of-day of a local timestamp. -/
def hourOf (t : Int) : Int := (t % 86400) / 3600

/-- Minute-of-hour of a local timestamp. -/
def minuteOf (t : Int) : Int := (t % 3600) / 60

/-- Two-digit zero-padded rendering, as `strftime("%H")`/`("%M")` produce. -/
def pad2 (n : Int) : Str :=
  if n < 10 then '0' :: (toString n).toList else (toString n).toList

/-- `format_date_french(dt)`: `"3 février 2026"` (day not zero-padded). -/
def format_date_french (t : Int) : Str :=
  match civilFromDays (dateOf t) with
  | (y, m, d) => (toString d).toList ++ ' ' :: frenchMonth m ++ ' ' :: (toString y).toList

/-- A patient row, restricted to the fields the command reads. -/
structure Patient where
  first_name : Str
  last_name : Str
  phone : Str
deriving DecidableEq

/-- `build_sms_message(patient, scheduled_local)`: the personalised French
reminder.  The source reads `timezone.now()` internally for the salutation;
here the run's current local time is passed in as `now_local`. -/
def build_sms_message (now_local : Int) (patient : Patient) (scheduled_local : Int) : Str :=
  let salutation := if hourOf now_local < 18 then "Bonjour".toList else "Bonsoir".toList
  let full_name := pyStrip (patient.first_name ++ ' ' :: patient.last_name)
  let patient_name := if full_name = [] then "Patient".toList else full_name
  let time_str := pad2 (hourOf scheduled_local) ++ ':' :: pad2 (minuteOf scheduled_local)
  let date_str := format_date_french scheduled_local
  salutation ++ ' ' :: patient_name
    ++ ", rappel : votre rendez-vous est demain à ".toList ++ time_str
    ++ " (".toList ++ date_str
    ++ ") avec le Dr Mukwamu B. Justin (médecin pédiatre). ".toList
    ++ "Merci d'arriver 10 minutes en avance. Cordialement, l'Equipe Clinique.".toList

/-- An appointment row, restricted to the fields the command reads/writes.
`scheduled_at` is the absolute (UTC) timestamp; `reminder_sent_at` is the
nullable sent marker. -/
structure Appointment where
  id : Nat
  patient : Patient
  scheduled_at : Int
  status : String
  reminders_enabled : Bool
  reminder_sent_at : Option Int
deriving DecidableEq

/-- One `AppointmentSMSLog` row (`appointment` is the appointment id). -/
structure SMSLog where
  appointment : Nat
  phone : Str
  provider : String
  status : String
  message_id : Str
  error_message : Str
deriving DecidableEq

/-- The persistent state the run reads and writes: the appointment rows and
the append-only SMS log rows. -/
structure RunState where
  appointments : List Appointment
  logs : List SMSLog
deriving DecidableEq

/-- The observable outcome of one run: final state, whether the run aborted
at the safety cap, the `logger.critical` messages emitted, and the summary
counters. -/
structure RunReport where
  state : RunState
  aborted : Bool
  criticals : List Str
  sent : Nat
  failed : Nat
  skipped : Nat
  total_candidates : Nat
deriving DecidableEq

/-- `ELIGIBLE_STATUSES = ["CONFIRMED", "RESCHEDULED"]`. -/
def ELIGIBLE_STATUSES : List String := ["CONFIRMED", "RESCHEDULED"]

/-- The candidate queryset filter: scheduled in `[start_utc, end_utc)`,
status in `ELIGIBLE_STATUSES`, reminders enabled, reminder not yet sent. -/
def candidateFilter (startUtc endUtc : Int) (a : Appointment) : Bool :=
  decide (startUtc ≤ a.scheduled_at) && decide (a.scheduled_at < endUtc)
    && ELIGIBLE_STATUSES.contains a.status && a.reminders_enabled
    && a.reminder_sent_at.isNone

/-- `window_start` in UTC: local midnight opening `tomorrow_date`
(`now_local.date() + 1`) converted back to UTC. -/
def startUtcOf (st : Settings) (now_utc : Int) : Int :=
  (dateOf (now_utc + st.clinic_tz_offset) + 1) * 86400 - st.clinic_tz_offset

/-- `window_end` in UTC: `datetime.combine(day_after, time.max)` converted to
UTC.  `time.max` is the last representable instant of `day_after`
(23:59:59.999999) and the query comparison is strict (`scheduled_at__lt`), so
at whole-second granularity the filter passes exactly the timestamps below
the midnight that closes `day_after`. -/
def endUtcOf (st : Settings) (now_utc : Int) : Int :=
  (dateOf (now_utc + st.clinic_tz_offset) + 3) * 86400 - st.clinic_tz_offset

/-- The candidate list produced by the queryset for one run. -/
def candidatesOf (st : Settings) (now_utc : Int) (s : RunState) : List Appointment :=
  s.appointments.filter (candidateFilter (startUtcOf st now_utc) (endUtcOf st now_utc))

/-- `appointment.reminder_sent_at = ...; appointment.save(...)`: update the
row with the given primary key. -/
def updReminder (i : Nat) (t : Int) (l : List Appointment) : List Appointment :=
  l.map (fun b => if b.id = i then { b with reminder_sent_at := some t } else b)

/-- The FAILED log row written when the patient has no phone on file. -/
def missingPhoneLog (a : Appointment) : SMSLog :=
  { appointment := a.id, phone := [], provider := "africastalking", status := "FAILED",
    message_id := [], error_message := "Patient phone number is missing".toList }

/-- The gateway call made for one candidate: `send_sms(phone_raw, message)`
with the message built from the patient and the local scheduled time. -/
def gatewayResultFor (st : Settings) (net : Str → Str → ProviderResponse)
    (now_utc : Int) (a : Appointment) : SendResult :=
  send_sms st net (pyStrip a.patient.phone)
    (build_sms_message (now_utc + st.clinic_tz_offset) a.patient
      (a.scheduled_at + st.clinic_tz_offset))

/-- The log row written after a gateway call, mirroring the
`AppointmentSMSLog.objects.create(...)` keyword arguments. -/
def attemptLog (st : Settings) (net : Str → Str → ProviderResponse)
    (now_utc : Int) (a : Appointment) : SMSLog :=
  { appointment := a.id,
    phone := pyOr (gatewayResultFor st net now_utc a).phone_normalised (pyStrip a.patient.phone),
    provider := (gatewayResultFor st net now_utc a).provider,
    status := if (gatewayResultFor st net now_utc a).ok then "SUCCESS" else "FAILED",
    message_id := pyOr (gatewayResultFor st net now_utc a).message_id [],
    error_message := pyOr (gatewayResultFor st net now_utc a).error [] }

/-- The body of the `for appointment in candidates` loop, threading the state
and the `(sent, failed, skipped)` counters.  `reminder_sent_at` is written
with the run's clock (the source re-reads `timezone.now()` at that point). -/
def stepCandidate (st : Settings) (net : Str → Str → ProviderResponse) (now_utc : Int)
    (acc : RunState × Nat × Nat × Nat) (a : Appointment) : RunState × Nat × Nat × Nat :=
  match acc with
  | (s, sent, failed, skipped) =>
    if (is_eligible_for_send a.scheduled_at (now_utc + st.clinic_tz_offset)
        st.clinic_tz_offset).fst = false then
      (s, sent, failed, skipped + 1)
    else if pyStrip a.patient.phone = [] then
      ({ appointments := s.appointments, logs := s.logs ++ [missingPhoneLog a] },
        sent, failed + 1, skipped)
    else
      if (gatewayResultFor st net now_utc a).ok then
        ({ appointments := updReminder a.id now_utc s.appointments,
           logs := s.logs ++ [attemptLog st net now_utc a] },
          sent + 1, failed, skipped)
      else
        ({ appointments := s.appointments,
           logs := s.logs ++ [attemptLog st net now_utc a] },
          sent, failed + 1, skipped)

/-- The `logger.critical` message of the safety-cap abort. -/
def capMessage (total cap : Nat) : Str :=
  "SAFETY CAP: ".toList ++ (Nat.repr total).toList
    ++ " candidates exceed limit of ".toList ++ (Nat.repr cap).toList
    ++ ". Aborting to prevent mass sends. Raise SMS_MAX_REMINDERS_PER_RUN if intentional.".toList

/-- `Command.handle` for one invocation at absolute time `now_utc`: query the
candidates, return early when there are none, abort at the safety cap
(default 200), otherwise process every candidate in order. -/
def handle (st : Settings) (net : Str → Str → ProviderResponse) (now_utc : Int)
    (s : RunState) : RunReport :=
  if (candidatesOf st now_utc s).length = 0 then
    { state := s, aborted := false, criticals := [], sent := 0, failed := 0,
      skipped := 0, total_candidates := 0 }
  else if st.sms_max_reminders_per_run.getD 200 < (candidatesOf st now_utc s).length then
    { state := s, aborted := true,
      criticals := [capMessage (candidatesOf st now_utc s).length
        (st.sms_max_reminders_per_run.getD 200)],
      sent := 0, failed := 0, skipped := 0,
      total_candidates := (candidatesOf st now_utc s).length }
  else
    { state := ((candidatesOf st now_utc s).foldl (stepCandidate st net now_utc) (s, 0, 0, 0)).1,
      aborted := false, criticals := [],
      sent := ((candidatesOf st now_utc s).foldl (stepCandidate st net now_utc) (s, 0, 0, 0)).2.1,
      failed := ((candidatesOf st now_utc s).foldl (stepCandidate st net now_utc) (s, 0, 0, 0)).2.2.1,
      skipped := ((candidatesOf st now_utc s).foldl (stepCandidate st net now_utc) (s, 0, 0, 0)).2.2.2,
      total_candidates := (candidatesOf st now_utc s).length }

/-! ## Concrete sample data used by the witness theorems -/

/-- A configured settings record (credentials present, Kinshasa offset,
safety cap left at the `getattr` default). -/
def sampleSettings : Settings :=
  { username := "user".toList, api_key := "key".toList, sender_id := [],
    clinic_tz_offset := 3600, sms_max_reminders_per_run := none }

/-- A provider that accepts every message. -/
def sampleNetOk : Str → Str → ProviderResponse :=
  fun _ _ => ProviderResponse.resp 200 ("x".toList)
    (some [{ status := some ("Success".toList), messageId := some ("ATXid_1".toList) }])

/-- A transport failure: the POST raises a connection error. -/
def sampleNetDown : Str → Str → ProviderResponse :=
  fun _ _ => ProviderResponse.exn ("Connection refused".toList)

/-- A provider-side failure: the POST raises with an account-balance error
message. -/
def sampleNetBalance : Str → Str → ProviderResponse :=
  fun _ _ => ProviderResponse.exn ("Insufficient balance".toList)

def samplePatient : Patient :=
  { first_name := "Ana".toList, last_name := "K".toList, phone := "0812345678".toList }

/-- An appointment at 10:00 local on local day 1 (`scheduled_at` in UTC),
confirmed, reminders on, not yet reminded.  At `now_utc = 57600` the local
time is 17:00:00 on local day 0 — the opening instant of the window. -/
def sampleAppt : Appointment :=
  { id := 1, patient := samplePatient, scheduled_at := 118800, status := "CONFIRMED",
    reminders_enabled := true, reminder_sent_at := none }

def sampleState : RunState := { appointments := [sampleAppt], logs := [] }

/-- `sampleAppt` after a successful first run at `now_utc = 57600`. -/
def sampleApptSent : Appointment := { sampleAppt with reminder_sent_at := some 57600 }

/-- An otherwise-eligible candidate whose patient's phone is whitespace. -/
def noPhoneAppt : Appointment :=
  { id := 2, patient := { first_name := "Jo".toList, last_name := [], phone := "  ".toList },
    scheduled_at := 118800, status := "CONFIRMED", reminders_enabled := true,
    reminder_sent_at := none }

/-- 201 candidate appointments — one over the default cap of 200. -/
def capState : RunState :=
  { appointments := (List.range 201).map (fun k =>
      { id := k, patient := samplePatient, scheduled_at := 118800, status := "CONFIRMED",
        reminders_enabled := true, reminder_sent_at := none }),
    logs := [] }

/-! ## Helper lemmas -/

lemma beq_plus_eq_false {c : Char} (h : c.isDigit = true) : ('+' == c) = false := by
  cases hb : ('+' == c)
  · rfl
  · have hc : '+' = c := beq_iff_eq.mp hb
    rw [← hc] at h
    exact absurd h (by decide)

lemma all_digit_head {c : Char} {t : Str} (h : (c :: t).all Char.isDigit = true) :
    c.isDigit = true := by
  simp [List.all_cons] at h
  exact h.1

lemma e164_plus243 (sub : Str) (h9 : sub.length = 9) (hd : sub.all Char.isDigit = true) :
    isE164 ('+' :: '2' :: '4' :: '3' :: sub) = true := by
  simp [isE164, List.all_cons, hd, h9]

lemma normCore_trunk (sub : Str) (h9 : sub.length = 9) :
    normalizeCore ('0' :: sub) = '+' :: '2' :: '4' :: '3' :: sub := by
  simp [normalizeCore, List.isPrefixOf, h9, DRC_COUNTRY_CODE]

lemma normCore_bare (c : Char) (t : Str) (h9 : (c :: t).length = 9) (hc : c.isDigit = true)
    (h0 : c ≠ '0') :
    normalizeCore (c :: t) = '+' :: '2' :: '4' :: '3' :: c :: t := by
  have hp : ('+' == c) = false := beq_plus_eq_false hc
  have h0' : ('0' == c) = false := beq_eq_false_iff_ne.mpr (fun h => h0 h.symm)
  simp [normalizeCore, List.isPrefixOf, h9, hp, h0', DRC_COUNTRY_CODE]

lemma normCore_cc (sub : Str) (h9 : sub.length = 9) :
    normalizeCore ('2' :: '4' :: '3' :: sub) = '+' :: '2' :: '4' :: '3' :: sub := by
  simp [normalizeCore, List.isPrefixOf, h9]

lemma normCore_intl (sub : Str) :
    normalizeCore ('+' :: '2' :: '4' :: '3' :: sub) = '+' :: '2' :: '4' :: '3' :: sub := by
  simp [normalizeCore, List.isPrefixOf]

/-- Every return path of `send_sms` with `ok = true` has `error = none`, and
every return path carries the provider name. -/
lemma send_sms_shape (st : Settings) (net : Str → Str → ProviderResponse)
    (phone m : Str) :
    ((send_sms st net phone m).ok = true → (send_sms st net phone m).error = none) ∧
    (send_sms st net phone m).provider = "africastalking" := by
  unfold send_sms
  split
  · simp
  · split_ifs with hc
    · simp
    · split
      · simp
      · split_ifs with h4
        · simp
        · split
          · simp
          · split
            · simp
            · split_ifs with hs <;> simp

lemma gatewayResultFor_provider (st : Settings) (net : Str → Str → ProviderResponse)
    (now_utc : Int) (a : Appointment) :
    (gatewayResultFor st net now_utc a).provider = "africastalking" := by
  unfold gatewayResultFor
  exact (send_sms_shape _ _ _ _).2

lemma gatewayResultFor_ok_no_error (st : Settings) (net : Str → Str → ProviderResponse)
    (now_utc : Int) (a : Appointment)
    (h : (gatewayResultFor st net now_utc a).ok = true) :
    (gatewayResultFor st net now_utc a).error = none := by
  unfold gatewayResultFor at h ⊢
  exact (send_sms_shape _ _ _ _).1 h

lemma updReminder_ids (i : Nat) (t : Int) (l : List Appointment) :
    (updReminder i t l).map Appointment.id = l.map Appointment.id := by
  simp only [updReminder, List.map_map]
  apply List.map_congr_left
  intro b _
  by_cases hb : b.id = i <;> simp [hb]

lemma mem_updReminder_of_ne (i : Nat) (t : Int) (l : List Appointment) (a : Appointment)
    (ha : a ∈ l) (hne : a.id ≠ i) : a ∈ updReminder i t l := by
  have h2 := List.mem_map_of_mem
    (fun b => if b.id = i then { b with reminder_sent_at := some t } else b) ha
  simpa [updReminder, hne] using h2

/-- One loop iteration never changes the multiset of appointment ids. -/
lemma stepCandidate_ids (st : Settings) (net : Str → Str → ProviderResponse) (now_utc : Int)
    (acc : RunState × Nat × Nat × Nat) (a : Appointment) :
    ((stepCandidate st net now_utc acc a).1.appointments).map Appointment.id
      = (acc.1.appointments).map Appointment.id := by
  rcases acc with ⟨s, x, y, z⟩
  simp only [stepCandidate]
  split_ifs <;> simp [updReminder_ids]

/-- One loop iteration for candidate `a` adds no log row for a different
appointment id. -/
lemma stepCandidate_filter_logs (st : Settings) (net : Str → Str → ProviderResponse)
    (now_utc : Int) (acc : RunState × Nat × Nat × Nat) (a : Appointment) (i : Nat)
    (hne : a.id ≠ i) :
    ((stepCandidate st net now_utc acc a).1.logs.filter (fun L => L.appointment == i))
      = acc.1.logs.filter (fun L => L.appointment == i) := by
  rcases acc with ⟨s, x, y, z⟩
  have hbeq : (a.id == i) = false := beq_eq_false_iff_ne.mpr hne
  simp only [stepCandidate]
  split_ifs <;> simp [List.filter_append, missingPhoneLog, attemptLog, hbeq]

/-- One loop iteration for candidate `a` leaves every row with a different id
in place, unmodified. -/
lemma stepCandidate_mem (st : Settings) (net : Str → Str → ProviderResponse) (now_utc : Int)
    (acc : RunState × Nat × Nat × Nat) (a : Appointment) (i : Nat) (b : Appointment)
    (hne : a.id ≠ i) (hb : b ∈ acc.1.appointments) (hbi : b.id = i) :
    b ∈ (stepCandidate st net now_utc acc a).1.appointments := by
  rcases acc with ⟨s, x, y, z⟩
  have hbne : b.id ≠ a.id := by
    rw [hbi]
    exact fun h => hne h.symm
  simp only [stepCandidate]
  split_ifs <;> first
    | exact hb
    | exact mem_updReminder_of_ne a.id now_utc s.appointments b hb hbne

lemma foldl_ids (st : Settings) (net : Str → Str → ProviderResponse) (now_utc : Int) :
    ∀ (cs : List Appointment) (acc : RunState × Nat × Nat × Nat),
      (((cs.foldl (stepCandidate st net now_utc) acc).1.appointments).map Appointment.id)
        = (acc.1.appointments).map Appointment.id
  | [], _ => rfl
  | c :: cs, acc => by
      rw [List.foldl_cons, foldl_ids st net now_utc cs _, stepCandidate_ids]

lemma foldl_filter_logs (st : Settings) (net : Str → Str → ProviderResponse) (now_utc : Int)
    (i : Nat) :
    ∀ (cs : List Appointment), (∀ c ∈ cs, c.id ≠ i) → ∀ acc : RunState × Nat × Nat × Nat,
      ((cs.foldl (stepCandidate st net now_utc) acc).1.logs.filter
        (fun L => L.appointment == i))
        = acc.1.logs.filter (fun L => L.appointment == i)
  | [], _, _ => rfl
  | c :: cs, h, acc => by
      rw [List.foldl_cons,
        foldl_filter_logs st net now_utc i cs (fun d hd => h d (List.mem_cons_of_mem _ hd)) _,
        stepCandidate_filter_logs st net now_utc acc c i (h c (List.mem_cons_self c cs))]

lemma foldl_mem (st : Settings) (net : Str → Str → ProviderResponse) (now_utc : Int)
    (i : Nat) (b : Appointment) (hbi : b.id = i) :
    ∀ (cs : List Appointment), (∀ c ∈ cs, c.id ≠ i) → ∀ acc : RunState × Nat × Nat × Nat,
      b ∈ acc.1.appointments →
      b ∈ ((cs.foldl (stepCandidate st net now_utc) acc).1.appointments)
  | [], _, _, hb => hb
  | c :: cs, h, acc, hb => by
      rw [List.foldl_cons]
      exact foldl_mem st net now_utc i b hbi cs
        (fun d hd => h d (List.mem_cons_of_mem _ hd)) _
        (stepCandidate_mem st net now_utc acc c i b (h c (List.mem_cons_self c cs)) hb hbi)

lemma handle_ids (st : Settings) (net : Str → Str → ProviderResponse) (now_utc : Int)
    (s : RunState) :
    ((handle st net now_utc s).state.appointments).map Appointment.id
      = s.appointments.map Appointment.id := by
  unfold handle
  split_ifs <;> simp [foldl_ids]

/-- The core of the idempotence claim: an appointment whose reminder marker
is already set is excluded by the candidate query, so one run (over a state
with unique ids) leaves its row untouched and writes no log row for it. -/
lemma handle_preserves_sent (st : Settings) (net : Str → Str → ProviderResponse)
    (now_utc : Int) (s : RunState)
    (hnd : (s.appointments.map Appointment.id).Nodup)
    (a : Appointment) (ha : a ∈ s.appointments) (hset : a.reminder_sent_at ≠ none) :
    a ∈ (handle st net now_utc s).state.appointments ∧
    ((handle st net now_utc s).state.logs.filter (fun L => L.appointment == a.id))
      = s.logs.filter (fun L => L.appointment == a.id) := by
  have hcand : ∀ c ∈ candidatesOf st now_utc s, c.id ≠ a.id := by
    intro c hc hci
    have hc' := List.mem_filter.mp hc
    have hcnone : c.reminder_sent_at = none := by
      have h2 := hc'.2
      simp [candidateFilter] at h2
      tauto
    have hca : c = a := List.inj_on_of_nodup_map hnd hc'.1 ha hci
    rw [hca] at hcnone
    exact hset hcnone
  unfold handle
  split_ifs with h0 hcap
  · exact ⟨ha, rfl⟩
  · exact ⟨ha, rfl⟩
  · exact ⟨foldl_mem st net now_utc a.id a rfl (candidatesOf st now_utc s) hcand
        (s, 0, 0, 0) ha,
      foldl_filter_logs st net now_utc a.id (candidatesOf st now_utc s) hcand (s, 0, 0, 0)⟩

/-! ## Claim theorems -/

/-- Claim C1: for every appointment scheduled time and every now (local
clinic time), the eligibility evaluator returns eligible if and only if now
is at or after 17:00:00 on the calendar day before the appointment, strictly
before the scheduled time, and now's calendar date equals that day-before
date; 16:59:59 on the day before is ineligible with the before-cutoff reason,
17:00:00 on the day before is eligible, and any instant on the appointment's
own calendar date is ineligible. -/
theorem C1_eligibility_window (s now tz : Int) :
    (((is_eligible_for_send s now tz).fst = true) ↔
      ((dateOf (s + tz) - 1) * 86400 + 17 * 3600 ≤ now ∧ now < s + tz ∧
        dateOf now = dateOf (s + tz) - 1))
    ∧ is_eligible_for_send s ((dateOf (s + tz) - 1) * 86400 + 17 * 3600 - 1) tz
        = (false, "before cutoff (17:00 day before)")
    ∧ (is_eligible_for_send s ((dateOf (s + tz) - 1) * 86400 + 17 * 3600) tz).fst = true
    ∧ ∀ t : Int, dateOf t = dateOf (s + tz) → (is_eligible_for_send s t tz).fst = false := by
  refine ⟨?_, ?_, ?_, ?_⟩
  · simp only [is_eligible_for_send, dateOf]
    split_ifs with h1 h2 h3 h4 <;> simp <;> omega
  · simp only [is_eligible_for_send, dateOf]
    split_ifs with h1 <;> first | rfl | (exfalso; omega)
  · simp only [is_eligible_for_send, dateOf]
    split_ifs with h1 h2 h3 h4 <;> first | rfl | (exfalso; omega)
  · intro t ht
    simp only [dateOf] at ht
    simp only [is_eligible_for_send, dateOf]
    split_ifs with h1 h2 h3 h4 <;> first | rfl | (exfalso; omega)

/-- Witness for C1: an appointment at 10:00 local on day 1 is eligible at
exactly 17:00:00 local on day 0. -/
theorem C1_eligibility_window_witness :
    (is_eligible_for_send 122400 61200 0).fst = true :=
  ((C1_eligibility_window 122400 61200 0).1).mpr (by decide)

/-- Claim C2: running the job twice with no external state change leaves
every appointment whose reminder marker is set after the first run untouched
by the second run — its row is unchanged and the log rows referring to it are
exactly those of the first run (hence zero additional sends and zero
additional log rows for it).  Appointment ids are assumed unique, as database
primary keys are. -/
theorem C2_idempotent_rerun (st : Settings) (net : Str → Str → ProviderResponse)
    (t1 t2 : Int) (s0 : RunState)
    (hnd : (s0.appointments.map Appointment.id).Nodup)
    (a : Appointment)
    (ha : a ∈ (handle st net t1 s0).state.appointments)
    (hset : a.reminder_sent_at ≠ none) :
    a ∈ (handle st net t2 (handle st net t1 s0).state).state.appointments ∧
    ((handle st net t2 (handle st net t1 s0).state).state.logs.filter
      (fun L => L.appointment == a.id))
      = (handle st net t1 s0).state.logs.filter (fun L => L.appointment == a.id) := by
  have hnd1 : (((handle st net t1 s0).state.appointments).map Appointment.id).Nodup := by
    rw [handle_ids]
    exact hnd
  exact handle_preserves_sent st net t2 (handle st net t1 s0).state hnd1 a ha hset

/-- Witness for C2: one candidate, successful send; after the first run its
marker is `some 57600`, and the second run adds no log row for it and keeps
its row unchanged. -/
theorem C2_idempotent_rerun_witness :
    sampleApptSent ∈
      (handle sampleSettings sampleNetOk 57600
        (handle sampleSettings sampleNetOk 57600 sampleState).state).state.appointments ∧
    ((handle sampleSettings sampleNetOk 57600
        (handle sampleSettings sampleNetOk 57600 sampleState).state).state.logs.filter
      (fun L => L.appointment == sampleApptSent.id))
      = (handle sampleSettings sampleNetOk 57600 sampleState).state.logs.filter
        (fun L => L.appointment == sampleApptSent.id) :=
  C2_idempotent_rerun sampleSettings sampleNetOk 57600 57600 sampleState (by decide)
    sampleApptSent (by decide) (by decide)

/-- Claim C3: when the candidate count exceeds the configured cap (the
`getattr` default being 200), the run aborts before processing anything: the
state (appointments and log rows) is returned unchanged, zero sends are
counted, and the abort is reported through `logger.critical`. -/
theorem C3_safety_cap_abort (st : Settings) (net : Str → Str → ProviderResponse)
    (now_utc : Int) (s : RunState)
    (h : st.sms_max_reminders_per_run.getD 200 < (candidatesOf st now_utc s).length) :
    handle st net now_utc s =
      { state := s, aborted := true,
        criticals := [capMessage (candidatesOf st now_utc s).length
          (st.sms_max_reminders_per_run.getD 200)],
        sent := 0, failed := 0, skipped := 0,
        total_candidates := (candidatesOf st now_utc s).length } := by
  rw [handle, if_neg (by omega), if_pos h]

set_option maxRecDepth 8192 in
/-- Witness for C3: 201 candidates against the default cap of 200. -/
theorem C3_safety_cap_abort_witness :
    handle sampleSettings sampleNetOk 57600 capState =
      { state := capState, aborted := true,
        criticals := [capMessage (candidatesOf sampleSettings 57600 capState).length
          (sampleSettings.sms_max_reminders_per_run.getD 200)],
        sent := 0, failed := 0, skipped := 0,
        total_candidates := (candidatesOf sampleSettings 57600 capState).length } :=
  C3_safety_cap_abort sampleSettings sampleNetOk 57600 capState (by decide)

/-- Claim C4: for an eligible candidate with a usable phone, if the gateway
returns `ok = false` with a nonempty error text then the loop appends exactly
one FAILED log row carrying that error text and leaves the appointment rows
(hence `reminder_sent_at`) unchanged; the reminder marker is written (to the
run's current time) exactly when the gateway returns `ok = true`. -/
theorem C4_provider_failure (st : Settings) (net : Str → Str → ProviderResponse)
    (now_utc : Int) (s : RunState) (sent failed skipped : Nat) (a : Appointment)
    (helig : (is_eligible_for_send a.scheduled_at (now_utc + st.clinic_tz_offset)
      st.clinic_tz_offset).fst = true)
    (hphone : pyStrip a.patient.phone ≠ []) :
    (∀ e : Str, (gatewayResultFor st net now_utc a).error = some e → e ≠ [] →
      stepCandidate st net now_utc (s, sent, failed, skipped) a =
        ({ appointments := s.appointments,
           logs := s.logs ++
             [{ appointment := a.id,
                phone := pyOr (gatewayResultFor st net now_utc a).phone_normalised
                  (pyStrip a.patient.phone),
                provider := "africastalking", status := "FAILED",
                message_id := pyOr (gatewayResultFor st net now_utc a).message_id [],
                error_message := e }] },
          sent, failed + 1, skipped)) ∧
    ((gatewayResultFor st net now_utc a).ok = false →
      (stepCandidate st net now_utc (s, sent, failed, skipped) a).1.appointments
        = s.appointments) ∧
    ((gatewayResultFor st net now_utc a).ok = true →
      (stepCandidate st net now_utc (s, sent, failed, skipped) a).1.appointments
        = updReminder a.id now_utc s.appointments) := by
  refine ⟨?_, ?_, ?_⟩
  · intro e he hne
    have hok : (gatewayResultFor st net now_utc a).ok = false := by
      cases hb : (gatewayResultFor st net now_utc a).ok
      · rfl
      · rw [gatewayResultFor_ok_no_error st net now_utc a hb] at he
        exact absurd he (by simp)
    simp [stepCandidate, attemptLog, helig, hphone, hok, he, pyOr, hne,
      gatewayResultFor_provider]
  · intro hok
    simp [stepCandidate, helig, hphone, hok]
  · intro hok
    simp [stepCandidate, helig, hphone, hok]

/-- Witness for C4: the gateway call raises "Insufficient balance"; the loop
records one FAILED row with that text and leaves the appointments unchanged. -/
theorem C4_provider_failure_witness :
    stepCandidate sampleSettings sampleNetBalance 57600 (sampleState, 0, 0, 0) sampleAppt =
      ({ appointments := sampleState.appointments,
         logs := sampleState.logs ++
           [{ appointment := sampleAppt.id,
              phone := pyOr (gatewayResultFor sampleSettings sampleNetBalance 57600
                  sampleAppt).phone_normalised
                (pyStrip sampleAppt.patient.phone),
              provider := "africastalking", status := "FAILED",
              message_id := pyOr (gatewayResultFor sampleSettings sampleNetBalance 57600
                sampleAppt).message_id [],
              error_message := "Insufficient balance".toList }] },
        0, 0 + 1, 0) :=
  (C4_provider_failure sampleSettings sampleNetBalance 57600 sampleState 0 0 0 sampleAppt
    (by decide) (by decide)).1 ("Insufficient balance".toList) (by decide) (by decide)

/-- Claim C5: for an eligible candidate whose patient's phone is empty after
trimming, the loop writes exactly one FAILED log row saying the phone is
missing, and the gateway is never invoked — the step's outcome is identical
under every network oracle. -/
theorem C5_missing_phone (st : Settings) (net net2 : Str → Str → ProviderResponse)
    (now_utc : Int) (s : RunState) (sent failed skipped : Nat) (a : Appointment)
    (helig : (is_eligible_for_send a.scheduled_at (now_utc + st.clinic_tz_offset)
      st.clinic_tz_offset).fst = true)
    (hphone : pyStrip a.patient.phone = []) :
    stepCandidate st net now_utc (s, sent, failed, skipped) a =
      ({ appointments := s.appointments, logs := s.logs ++ [missingPhoneLog a] },
        sent, failed + 1, skipped) ∧
    stepCandidate st net2 now_utc (s, sent, failed, skipped) a
      = stepCandidate st net now_utc (s, sent, failed, skipped) a := by
  constructor <;> simp [stepCandidate, helig, hphone]

/-- Witness for C5: a candidate whose patient phone is whitespace. -/
theorem C5_missing_phone_witness :
    stepCandidate sampleSettings sampleNetOk 57600 (sampleState, 0, 0, 0) noPhoneAppt =
      ({ appointments := sampleState.appointments,
         logs := sampleState.logs ++ [missingPhoneLog noPhoneAppt] }, 0, 0 + 1, 0) ∧
    stepCandidate sampleSettings sampleNetDown 57600 (sampleState, 0, 0, 0) noPhoneAppt
      = stepCandidate sampleSettings sampleNetOk 57600 (sampleState, 0, 0, 0) noPhoneAppt :=
  C5_missing_phone sampleSettings sampleNetOk sampleNetDown 57600 sampleState 0 0 0 noPhoneAppt
    (by decide) (by decide)

/-- Counterexample to claim C6 as stated: on an unparseable phone the gateway
client's error field is the masked-input message
`"Invalid phone number: ***"`, not the literal `"invalid phone"`. -/
theorem C6_invalid_phone_counterexample :
    (send_sms sampleSettings sampleNetOk ("abc".toList) ("msg".toList)).error
        = some ("Invalid phone number: ***".toList) ∧
    ¬ (send_sms sampleSettings sampleNetOk ("abc".toList) ("msg".toList)).error
        = some ("invalid phone".toList) := by decide

/-- Claim C6 (amended): when normalization fails, `send_sms` returns
`ok = false`, `message_id = none`, `phone_normalised = none`, and an error
message of the form `"Invalid phone number: "` followed by the masked input
(rather than the literal text `"invalid phone"`), and the result is
independent of the network's behaviour — no network call is made. -/
theorem C6_invalid_phone (st : Settings) (net net2 : Str → Str → ProviderResponse)
    (phone m : Str) (h : normalize_phone_drc phone = none) :
    send_sms st net phone m =
      { ok := false, provider := "africastalking", message_id := none,
        error := some ("Invalid phone number: ".toList ++ mask_phone phone),
        phone_normalised := none } ∧
    send_sms st net phone m = send_sms st net2 phone m := by
  constructor <;> simp only [send_sms, h]

/-- Witness for C6: the input `"abc"` fails normalization; the result is the
invalid-phone failure record under both a healthy and a failing network. -/
theorem C6_invalid_phone_witness :
    send_sms sampleSettings sampleNetOk ("abc".toList) ("msg".toList) =
      { ok := false, provider := "africastalking", message_id := none,
        error := some ("Invalid phone number: ".toList ++ mask_phone ("abc".toList)),
        phone_normalised := none } ∧
    send_sms sampleSettings sampleNetOk ("abc".toList) ("msg".toList) =
      send_sms sampleSettings sampleNetDown ("abc".toList) ("msg".toList) :=
  C6_invalid_phone sampleSettings sampleNetOk sampleNetDown ("abc".toList) ("msg".toList)
    (by decide)

/-- Claim C7: when the HTTP call raises any exception, `send_sms` converts it
into an `ok = false` result whose error is the exception's message truncated
to 200 characters (and the truncation is indeed bounded by 200).  In this
embedding `send_sms` is a total function, so no exception ever propagates to
the caller. -/
theorem C7_transport_exception (st : Settings) (net : Str → Str → ProviderResponse)
    (phone m p emsg : Str)
    (hn : normalize_phone_drc phone = some p)
    (hu : st.username ≠ []) (hk : st.api_key ≠ [])
    (hnet : net p m = ProviderResponse.exn emsg) :
    send_sms st net phone m =
      { ok := false, provider := "africastalking", message_id := none,
        error := some (emsg.take 200), phone_normalised := some p } ∧
    (emsg.take 200).length ≤ 200 := by
  constructor
  · simp only [send_sms, hn, hu, hk, hnet]
    simp
  · simp [List.length_take]

/-- Witness for C7: a connection-refused exception becomes a failure result
with the exception text. -/
theorem C7_transport_exception_witness :
    send_sms sampleSettings sampleNetDown ("0812345678".toList) ("msg".toList) =
      { ok := false, provider := "africastalking", message_id := none,
        error := some (("Connection refused".toList).take 200),
        phone_normalised := some ("+243812345678".toList) } ∧
    (("Connection refused".toList).take 200).length ≤ 200 :=
  C7_transport_exception sampleSettings sampleNetDown ("0812345678".toList) ("msg".toList)
    ("+243812345678".toList) ("Connection refused".toList) (by decide) (by decide)
    (by decide) rfl

/-- Claim C8: for every valid local subscriber number (9 digits, not starting
with the trunk digit 0), the four input forms — trunk (`0` + subscriber),
bare subscriber, country code without plus (`243` + subscriber), and
international (`+243` + subscriber) — all normalize to the single canonical
string `+243` + subscriber; interior spaces and dashes are immaterial since
the hypothesis constrains only the input after character stripping. -/
theorem C8_normalize_four_forms (sub raw : Str)
    (hlen : sub.length = 9) (hdig : sub.all Char.isDigit = true)
    (h0 : List.isPrefixOf (['0'] : Str) sub = false)
    (hform : stripNonDigitPlus raw = '0' :: sub ∨ stripNonDigitPlus raw = sub ∨
      stripNonDigitPlus raw = '2' :: '4' :: '3' :: sub ∨
      stripNonDigitPlus raw = '+' :: '2' :: '4' :: '3' :: sub) :
    normalize_phone_drc raw = some ('+' :: '2' :: '4' :: '3' :: sub) := by
  have hne : raw ≠ [] := by
    intro he
    have hstrip : stripNonDigitPlus raw = [] := by rw [he]; rfl
    rcases hform with h | h | h | h <;> rw [hstrip] at h <;>
      apply_fun List.length at h <;> simp [hlen] at h
  cases sub with
  | nil => simp at hlen
  | cons c t =>
    have hc : c.isDigit = true := all_digit_head hdig
    have hc0 : c ≠ '0' := by
      intro he
      subst he
      simp [List.isPrefixOf] at h0
    simp only [normalize_phone_drc, if_neg hne]
    rcases hform with h | h | h | h <;> rw [h]
    · rw [normCore_trunk _ hlen]
      simp [e164_plus243 _ hlen hdig]
    · rw [normCore_bare c t hlen hc hc0]
      simp [e164_plus243 _ hlen hdig]
    · rw [normCore_cc _ hlen]
      simp [e164_plus243 _ hlen hdig]
    · rw [normCore_intl]
      simp [e164_plus243 _ hlen hdig]

/-- Witness for C8: the dashed/spaced trunk form of subscriber `812345678`
normalizes to the canonical number. -/
theorem C8_normalize_four_forms_witness :
    normalize_phone_drc ("081-234 5678".toList)
      = some ('+' :: '2' :: '4' :: '3' :: "812345678".toList) :=
  C8_normalize_four_forms ("812345678".toList) ("081-234 5678".toList) (by decide) (by decide)
    (by decide) (Or.inl (by decide))

/-- Counterexample to claim C9 as stated: a phone string of length exactly 8
(which is "longer" in the claim's sense, being over 7) is rendered by
`mask_phone` as itself — prefix 5 plus suffix 3 covers all 8 characters, the
output contains no mask character, and not a single character of the original
is hidden. -/
theorem C9_mask_counterexample :
    mask_phone ("12345678".toList) = "12345678".toList ∧
    ¬ '*' ∈ mask_phone ("12345678".toList) := by decide

/-- Claim C9 (amended): strings of length ≤ 7 (including empty) render as
`"***"`; strings of length ≥ 8 render as the 5-character prefix, then
`length - 8` mask characters, then the 3-character suffix, so the rendering
depends only on the prefix, suffix and length; for length ≥ 9 at least one
middle character is masked, but for length exactly 8 the rendering equals the
input and hides nothing. -/
theorem C9_mask (p : Str) :
    (p.length ≤ 7 → mask_phone p = "***".toList) ∧
    (8 ≤ p.length →
      mask_phone p = p.take 5 ++ List.replicate (p.length - 8) '*' ++ p.drop (p.length - 3)) ∧
    (8 ≤ p.length → ∀ q : Str, q.length = p.length → q.take 5 = p.take 5 →
      q.drop (q.length - 3) = p.drop (p.length - 3) → mask_phone q = mask_phone p) ∧
    (9 ≤ p.length → 1 ≤ p.length - 8) ∧
    (p.length = 8 → mask_phone p = p) := by
  refine ⟨?_, ?_, ?_, ?_, ?_⟩
  · intro h
    simp [mask_phone, h]
  · intro h
    simp [mask_phone]
    omega
  · intro h q hlen h5 h3
    rw [hlen] at h3
    simp only [mask_phone, if_neg (by omega : ¬ q.length ≤ 7), if_neg (by omega : ¬ p.length ≤ 7)]
    rw [h5, hlen, h3]
  · intro h
    omega
  · intro h
    simp only [mask_phone, if_neg (by omega : ¬ p.length ≤ 7), h]
    simp

/-- Witness for C9: a short string masks to `"***"` and a length-8 string is
rendered unchanged. -/
theorem C9_mask_witness :
    mask_phone ("1234567".toList) = "***".toList ∧
    mask_phone ("12345678".toList) = "12345678".toList :=
  ⟨(C9_mask ("1234567".toList)).1 (by decide),
    (C9_mask ("12345678".toList)).2.2.2.2 (by decide)⟩

/-- Claim C10: an 8-digit input not starting with `0` and not starting with
`243` passes through the normalizer with only a `+` prepended (every
country-code-prepending branch requires at least 9 digits), and the result
satisfies the E.164 pattern. -/
theorem C10_eight_digit_passthrough (ds : Str)
    (hlen : ds.length = 8) (hdig : ds.all Char.isDigit = true)
    (h0 : List.isPrefixOf (['0'] : Str) ds = false)
    (h243 : List.isPrefixOf (['2', '4', '3'] : Str) ds = false) :
    normalize_phone_drc ds = some ('+' :: ds) ∧ isE164 ('+' :: ds) = true := by
  have hne : ds ≠ [] := by
    intro he
    rw [he] at hlen
    simp at hlen
  have hstrip : stripNonDigitPlus ds = ds := by
    apply List.filter_eq_self.mpr
    intro c hc
    have := List.all_eq_true.mp hdig c hc
    simp [this]
  have he164 : isE164 ('+' :: ds) = true := by
    simp [isE164, hdig, hlen]
  cases ds with
  | nil => simp at hlen
  | cons c t =>
    have hc : c.isDigit = true := all_digit_head hdig
    have hp : ('+' == c) = false := beq_plus_eq_false hc
    have hcore : normalizeCore (c :: t) = '+' :: c :: t := by
      simp [normalizeCore, List.isPrefixOf, hlen, hp, h0, h243]
    refine ⟨?_, he164⟩
    simp only [normalize_phone_drc, if_neg hne, hstrip, hcore]
    simp [he164]

/-- Witness for C10: `normalize("12345678") = "+12345678"`. -/
theorem C10_eight_digit_passthrough_witness :
    normalize_phone_drc ("12345678".toList) = some ('+' :: "12345678".toList) ∧
    isE164 ('+' :: "12345678".toList) = true :=
  C10_eight_digit_passthrough ("12345678".toList) (by decide) (by decide) (by decide)
    (by decide)
